import Mathlib

/-!
Shallow embedding of
`public/app/plugins/datasource/loki/querybuilder/components/LokiQueryBuilderOptions.tsx`:
the Loki query-builder options panel.  The panel's pure summary helper
`getCollapsedInfo` and its six field-edit handlers are translated to Lean
functions.  Each handler is embedded as a pure function from its inputs to the
ordered list of callback events it fires (`reportInteraction`, `onChange`,
`onRunQuery`, `setSplitDurationValid`), so ordering and call counts are
observable.  JavaScript truthiness tests on optional fields are made explicit
(`truthyStr`, `truthyInt`), and nullish coalescing (`??`) becomes
`Option.getD`.  External collaborators that live elsewhere in the repository
(the option catalogs, `isValidDuration`, `preprocessMaxLines`) are modelled
from the specification, each marked by a doc comment.
-/

/-- Query type enum of the Loki data source (`LokiQueryType` in `../../types`,
not under src).  Modelled from the spec: "query-type enum (Range | Instant |
unset)". -/
inductive LokiQueryType where
  | Range
  | Instant
deriving DecidableEq, Repr

/-- The Loki query record (`LokiQuery` in `../../types`, not under src); the
fields this panel reads or writes, all optional except the expression.
Modelled from the spec data model: legend-format string, query-type enum,
instant-flag boolean (legacy fallback), line-limit integer, step string,
resolution integer, split-duration string. -/
structure LokiQuery where
  expr : String
  legendFormat : Option String
  queryType : Option LokiQueryType
  instant : Option Bool
  maxLines : Option Int
  step : Option String
  resolution : Option Int
  splitDuration : Option String
deriving DecidableEq, Repr

/-- A catalog entry: a selectable (value, label) pair, as in
`SelectableValue` of `@grafana/data`. -/
structure SelectableValue (α : Type) where
  value : α
  label : String
deriving DecidableEq, Repr

/-- Modelled from the spec: the static query-type catalog (`queryTypeOptions`
from `../../components/LokiOptionFields`, not under src): ordered (value,
label) choices for the Range and Instant query types. -/
def queryTypeOptions : List (SelectableValue LokiQueryType) :=
  [⟨LokiQueryType.Range, "Range"⟩, ⟨LokiQueryType.Instant, "Instant"⟩]

/-- Modelled from the spec: the static resolution catalog
(`RESOLUTION_OPTIONS` from `../../components/LokiOptionFields`, not under
src): ordered (divisor, fraction-label) choices, the entry for value 2 being
labeled "1/2" and the default divisor being 1 (labeled "1/1"). -/
def RESOLUTION_OPTIONS : List (SelectableValue Int) :=
  [⟨1, "1/1"⟩, ⟨2, "1/2"⟩, ⟨3, "1/3"⟩, ⟨4, "1/4"⟩, ⟨5, "1/5"⟩, ⟨10, "1/10"⟩]

/-- JavaScript truthiness of an optional string: defined and non-empty
(embeds `if (query.legendFormat)` and `if (query.step)`). -/
def truthyStr : Option String → Bool
  | some s => s != ""
  | none => false

/-- JavaScript truthiness of an optional number: defined and non-zero
(embeds `if (query.resolution)`). -/
def truthyInt : Option Int → Bool
  | some n => n != 0
  | none => false

/-- Label access through JavaScript optional chaining: `x?.label`
interpolates as the label when the lookup succeeded and as the string
"undefined" when it did not. -/
def labelOf {α : Type} : Option (SelectableValue α) → String
  | some v => v.label
  | none => "undefined"

/-- The resolution label used by `getCollapsedInfo`:
`RESOLUTION_OPTIONS.find((x) => x.value === (query.resolution ?? 1))?.label`. -/
def resolutionLabelStr (query : LokiQuery) : String :=
  labelOf (RESOLUTION_OPTIONS.find? (fun x => x.value == query.resolution.getD 1))

/-- The query-type label used by `getCollapsedInfo`:
`queryTypeOptions.find((x) => x.value === queryType)?.label`. -/
def queryTypeLabelStr (queryType : LokiQueryType) : String :=
  labelOf (queryTypeOptions.find? (fun x => x.value == queryType))

/-- The summary deriver `getCollapsedInfo(query, queryType, maxLines,
isLogQuery)`: builds the ordered list of collapsed-info strings by the same
sequence of guarded pushes as the source. -/
def getCollapsedInfo (query : LokiQuery) (queryType : LokiQueryType)
    (maxLines : Int) (isLogQuery : Bool) : List String :=
  (if truthyStr query.legendFormat then
    ["Legend: " ++ query.legendFormat.getD ""] else [])
  ++ (if truthyInt query.resolution then
    ["Resolution: " ++ resolutionLabelStr query] else [])
  ++ ["Type: " ++ queryTypeLabelStr queryType]
  ++ (if isLogQuery then
    ["Line limit: " ++ toString (query.maxLines.getD maxLines)] else [])
  ++ (if !isLogQuery then
      (if truthyStr query.step then ["Step: " ++ query.step.getD ""] else [])
      ++ (if truthyInt query.resolution then
        ["Resolution: " ++ resolutionLabelStr query] else [])
    else [])

/-- The resolved query type computed in the component body:
`query.queryType ?? (query.instant ? LokiQueryType.Instant :
LokiQueryType.Range)`. -/
def resolveQueryType (query : LokiQuery) : LokiQueryType :=
  match query.queryType with
  | some t => t
  | none => if query.instant.getD false then LokiQueryType.Instant
            else LokiQueryType.Range

/-- The optional app context forwarded into telemetry (`CoreApp` of
`@grafana/data`): an opaque tag, modelled from the spec as a plain string
wrapper ("optional context tag forwarded verbatim"). -/
structure CoreApp where
  tag : String
deriving DecidableEq, Repr

/-- One observable callback invocation made by a handler, in order:
a `reportInteraction` call, an `onChange` call carrying the new query,
an `onRunQuery` call, or a `setSplitDurationValid` state update. -/
inductive Event where
  | report (name : String) (app : Option CoreApp) (resolution : Option Int)
  | change (q : LokiQuery)
  | run
  | setSplitDurationValid (b : Bool)
deriving DecidableEq, Repr

/-- The queries passed to `onChange`, in order of invocation. -/
def changeCalls (evs : List Event) : List LokiQuery :=
  evs.filterMap (fun e => match e with
    | Event.change q => some q
    | _ => none)

/-- Number of `onRunQuery` invocations. -/
def runCount (evs : List Event) : Nat :=
  evs.countP (fun e => match e with
    | Event.run => true
    | _ => false)

/-- Number of `reportInteraction` invocations. -/
def reportCount (evs : List Event) : Nat :=
  evs.countP (fun e => match e with
    | Event.report _ _ _ => true
    | _ => false)

/-- Modelled from the spec: the duration-syntax check (`isValidDuration`
from `@grafana/data`, not under src).  A valid duration is one or more
number-unit groups such as "2d": this parser requires at least one digit
followed by a unit (`ms`, `s`, `m`, `h`, `d`, `w`, `y`) per group. -/
def parseNat1 : List Char → Option (List Char)
  | [] => none
  | c :: cs => if c.isDigit then some (cs.dropWhile Char.isDigit) else none

/-- Consumes one duration unit from the front of the character list
(part of the spec-modelled duration-syntax check). -/
def parseUnit : List Char → Option (List Char)
  | 'm' :: 's' :: cs => some cs
  | 'm' :: cs => some cs
  | 's' :: cs => some cs
  | 'h' :: cs => some cs
  | 'd' :: cs => some cs
  | 'w' :: cs => some cs
  | 'y' :: cs => some cs
  | _ => none

/-- Fuelled loop of the spec-modelled duration-syntax check: accepts one or
more number-unit groups consuming the whole input. -/
def validGroups : Nat → List Char → Bool
  | 0, _ => false
  | Nat.succ fuel, cs =>
    match parseNat1 cs with
    | none => false
    | some rest =>
      match parseUnit rest with
      | none => false
      | some [] => true
      | some rest2 => validGroups fuel rest2

/-- Modelled from the spec: `isValidDuration` of `@grafana/data` (not under
src), the duration-syntax validation applied to the split-duration field. -/
def isValidDuration (value : String) : Bool :=
  validGroups (value.length + 1) value.data

/-- Modelled from the spec: `preprocessMaxLines` from
`../../components/LokiOptionFields` (not under src): parses the committed
line-limit text as a non-negative integer, yielding no value for empty or
non-numeric input. -/
def preprocessMaxLines (value : String) : Option Int :=
  if !value.data.isEmpty && value.data.all Char.isDigit then
    some (Int.ofNat
      (value.data.foldl (fun acc c => acc * 10 + (c.toNat - 48)) 0))
  else
    none

/-- Modelled from lodash `trim` (external library): strips surrounding
whitespace. -/
def trim (s : String) : String := s.trim

/-- Handler `onQueryTypeChange`: unconditionally `onChange({...query,
queryType: value})` then `onRunQuery()`. -/
def onQueryTypeChange (query : LokiQuery) (value : LokiQueryType) :
    List Event :=
  [Event.change { query with queryType := some value }, Event.run]

/-- Handler `onResolutionChange`: `reportInteraction(
'grafana_loki_resolution_clicked', {app, resolution: option.value})`, then
`onChange({...query, resolution: option.value})`, then `onRunQuery()`.  The
received `SelectableValue<number>` may carry no value, so the handler is
embedded over the optional value it reads. -/
def onResolutionChange (app : Option CoreApp) (query : LokiQuery)
    (optionValue : Option Int) : List Event :=
  [Event.report "grafana_loki_resolution_clicked" app optionValue,
   Event.change { query with resolution := optionValue },
   Event.run]

/-- Handler `onChunkRangeChange`: when `isValidDuration(value)` fails, set
the local validity flag to false and return; otherwise set it to true,
`onChange({...query, splitDuration: value})` and `onRunQuery()`. -/
def onChunkRangeChange (query : LokiQuery) (value : String) : List Event :=
  if !isValidDuration value then
    [Event.setSplitDurationValid false]
  else
    [Event.setSplitDurationValid true,
     Event.change { query with splitDuration := some value },
     Event.run]

/-- Handler `onLegendFormatChanged`: unconditionally `onChange({...query,
legendFormat: value})` then `onRunQuery()`. -/
def onLegendFormatChanged (query : LokiQuery) (value : String) : List Event :=
  [Event.change { query with legendFormat := some value }, Event.run]

/-- Handler `onMaxLinesChange`: preprocess the committed text; only when the
result differs from `query.maxLines` does it `onChange({...query, maxLines:
newMaxLines})` and `onRunQuery()`. -/
def onMaxLinesChange (query : LokiQuery) (value : String) : List Event :=
  let newMaxLines := preprocessMaxLines value
  if query.maxLines ≠ newMaxLines then
    [Event.change { query with maxLines := newMaxLines }, Event.run]
  else
    []

/-- Handler `onStepChange`: unconditionally `onChange({...query, step:
trim(value)})` then `onRunQuery()`. -/
def onStepChange (query : LokiQuery) (value : String) : List Event :=
  [Event.change { query with step := some (trim value) }, Event.run]

/-- A query with every optional field absent, used as a base for concrete
instances. -/
def emptyQuery : LokiQuery :=
  { expr := ""
    legendFormat := none
    queryType := none
    instant := none
    maxLines := none
    step := none
    resolution := none
    splitDuration := none }

theorem truthyStr_isSome (o : Option String) (h : truthyStr o = true) :
    o.isSome = true := by
  cases o <;> simp [truthyStr] at h ⊢

theorem truthyInt_isSome (o : Option Int) (h : truthyInt o = true) :
    o.isSome = true := by
  cases o <;> simp [truthyInt] at h ⊢

theorem mem_seg2 {α : Type} {a : α} {s1 s2 s3 s4 s5 : List α} (h : a ∈ s2) :
    a ∈ s1 ++ s2 ++ s3 ++ s4 ++ s5 :=
  List.mem_append.mpr (Or.inl (List.mem_append.mpr (Or.inl
    (List.mem_append.mpr (Or.inl (List.mem_append.mpr (Or.inr h)))))))

theorem mem_seg4 {α : Type} {a : α} {s1 s2 s3 s4 s5 : List α} (h : a ∈ s4) :
    a ∈ s1 ++ s2 ++ s3 ++ s4 ++ s5 :=
  List.mem_append.mpr (Or.inl (List.mem_append.mpr (Or.inr h)))

theorem mem_seg5 {α : Type} {a : α} {s1 s2 s3 s4 s5 : List α} (h : a ∈ s5) :
    a ∈ s1 ++ s2 ++ s3 ++ s4 ++ s5 :=
  List.mem_append.mpr (Or.inr h)

theorem append_ne_append_of_head (a b s t : String) (c d : Char)
    (as bs : List Char) (ha : a.data = c :: as) (hb : b.data = d :: bs)
    (hcd : c ≠ d) : a ++ s ≠ b ++ t := by
  intro h
  have h2 := congrArg String.data h
  rw [String.data_append, String.data_append, ha, hb] at h2
  exact hcd (List.head_eq_of_cons_eq h2)

theorem legend_ne_res (x s : String) :
    ("Legend: " ++ x) ≠ ("Resolution: " ++ s) :=
  append_ne_append_of_head _ _ _ _ 'L' 'R' _ _ rfl rfl (by decide)

theorem type_ne_res (x s : String) :
    ("Type: " ++ x) ≠ ("Resolution: " ++ s) :=
  append_ne_append_of_head _ _ _ _ 'T' 'R' _ _ rfl rfl (by decide)

theorem step_ne_res (x s : String) :
    ("Step: " ++ x) ≠ ("Resolution: " ++ s) :=
  append_ne_append_of_head _ _ _ _ 'S' 'R' _ _ rfl rfl (by decide)

theorem limit_ne_res (x s : String) :
    ("Line limit: " ++ x) ≠ ("Resolution: " ++ s) :=
  append_ne_append_of_head _ _ _ _ 'L' 'R' _ _ rfl rfl (by decide)

/-- C1: the summary deriver returns its entries in the fixed precedence
order: a legend entry (only if `legendFormat` is set), a resolution-label
entry (only if `resolution` is set), a query-type entry (always, exactly
once), then for log queries a line-limit entry using the query's `maxLines`
or else the fallback, and for non-log queries a step entry (only if `step`
is set) followed by a second resolution-label entry (only if `resolution`
is set); no other entries appear. -/
theorem getCollapsedInfo_order (q : LokiQuery) (qt : LokiQueryType)
    (ml : Int) (log : Bool) :
    ∃ leg res st : Bool,
      getCollapsedInfo q qt ml log =
        (if leg then ["Legend: " ++ q.legendFormat.getD ""] else [])
        ++ (if res then ["Resolution: " ++ resolutionLabelStr q] else [])
        ++ ["Type: " ++ queryTypeLabelStr qt]
        ++ (if log then ["Line limit: " ++ toString (q.maxLines.getD ml)]
            else [])
        ++ (if !log then
            (if st then ["Step: " ++ q.step.getD ""] else [])
            ++ (if res then ["Resolution: " ++ resolutionLabelStr q] else [])
          else [])
      ∧ (leg = true → q.legendFormat.isSome = true)
      ∧ (res = true → q.resolution.isSome = true)
      ∧ (st = true → q.step.isSome = true) :=
  ⟨truthyStr q.legendFormat, truthyInt q.resolution, truthyStr q.step,
   rfl, truthyStr_isSome q.legendFormat, truthyInt_isSome q.resolution,
   truthyStr_isSome q.step⟩

/-- C1 witness: the decomposition at a concrete input. -/
theorem getCollapsedInfo_order_witness :
    ∃ leg res st : Bool,
      getCollapsedInfo emptyQuery LokiQueryType.Range 10 false =
        (if leg then ["Legend: " ++ emptyQuery.legendFormat.getD ""] else [])
        ++ (if res then ["Resolution: " ++ resolutionLabelStr emptyQuery]
            else [])
        ++ ["Type: " ++ queryTypeLabelStr LokiQueryType.Range]
        ++ (if false then
            ["Line limit: " ++ toString (emptyQuery.maxLines.getD 10)]
            else [])
        ++ (if !false then
            (if st then ["Step: " ++ emptyQuery.step.getD ""] else [])
            ++ (if res then ["Resolution: " ++ resolutionLabelStr emptyQuery]
              else [])
          else [])
      ∧ (leg = true → emptyQuery.legendFormat.isSome = true)
      ∧ (res = true → emptyQuery.resolution.isSome = true)
      ∧ (st = true → emptyQuery.step.isSome = true) :=
  getCollapsedInfo_order emptyQuery LokiQueryType.Range 10 false

/-- C3: the resolved query type is Instant when `queryType` is unset and
`instant` is true, Range when `queryType` is unset and `instant` is falsy
or absent, and equals `queryType` whenever that is explicitly set. -/
theorem resolveQueryType_spec (q : LokiQuery) :
    (q.queryType = none → q.instant = some true →
      resolveQueryType q = LokiQueryType.Instant)
    ∧ (q.queryType = none → (q.instant = some false ∨ q.instant = none) →
      resolveQueryType q = LokiQueryType.Range)
    ∧ (∀ t : LokiQueryType, q.queryType = some t →
      resolveQueryType q = t) := by
  refine ⟨?_, ?_, ?_⟩
  · intro h1 h2
    simp [resolveQueryType, h1, h2]
  · intro h1 h2
    rcases h2 with h2 | h2 <;> simp [resolveQueryType, h1, h2]
  · intro t h
    simp [resolveQueryType, h]

/-- C3 witness: a query with `queryType` unset and `instant = true`
resolves to Instant. -/
theorem resolveQueryType_spec_witness :
    resolveQueryType { emptyQuery with instant := some true } =
      LokiQueryType.Instant :=
  (resolveQueryType_spec { emptyQuery with instant := some true }).1 rfl rfl

/-- C7: for a log query with `maxLines` unset and fallback 10, the summary
contains "Line limit: 10"; with `maxLines = 5` it contains
"Line limit: 5". -/
theorem getCollapsedInfo_line_limit (q : LokiQuery) (qt : LokiQueryType) :
    (q.maxLines = none →
      "Line limit: 10" ∈ getCollapsedInfo q qt 10 true)
    ∧ (∀ ml : Int, q.maxLines = some 5 →
      "Line limit: 5" ∈ getCollapsedInfo q qt ml true) := by
  constructor
  · intro h
    unfold getCollapsedInfo
    apply mem_seg4
    rw [h]
    decide
  · intro ml h
    unfold getCollapsedInfo
    apply mem_seg4
    rw [h, Option.getD_some]
    decide

/-- C7 witness: both line-limit entries at concrete inputs. -/
theorem getCollapsedInfo_line_limit_witness :
    "Line limit: 10" ∈ getCollapsedInfo emptyQuery LokiQueryType.Range 10 true
    ∧ "Line limit: 5" ∈
      getCollapsedInfo { emptyQuery with maxLines := some 5 }
        LokiQueryType.Range 10 true :=
  ⟨(getCollapsedInfo_line_limit emptyQuery LokiQueryType.Range).1 rfl,
   (getCollapsedInfo_line_limit { emptyQuery with maxLines := some 5 }
     LokiQueryType.Range).2 10 rfl⟩

/-- C10: for a log query with `maxLines = 0` the line-limit entry reads
"Line limit: 0", and whenever `maxLines` is present the summary does not
depend on the external fallback at all (the fallback is substituted only
for an absent value, nullish coalescing). -/
theorem getCollapsedInfo_maxLines_zero (q : LokiQuery) (qt : LokiQueryType) :
    (∀ ml : Int, q.maxLines = some 0 →
      "Line limit: 0" ∈ getCollapsedInfo q qt ml true)
    ∧ (∀ ml ml' : Int, q.maxLines.isSome = true →
      getCollapsedInfo q qt ml true = getCollapsedInfo q qt ml' true) := by
  constructor
  · intro ml h
    unfold getCollapsedInfo
    apply mem_seg4
    rw [h, Option.getD_some]
    decide
  · intro ml ml' h
    obtain ⟨n, hn⟩ := Option.isSome_iff_exists.mp h
    unfold getCollapsedInfo
    rw [hn]
    simp [Option.getD_some]

/-- C10 witness: at `maxLines = 0` with fallback 10 the entry is
"Line limit: 0". -/
theorem getCollapsedInfo_maxLines_zero_witness :
    "Line limit: 0" ∈
      getCollapsedInfo { emptyQuery with maxLines := some 0 }
        LokiQueryType.Range 10 true :=
  (getCollapsedInfo_maxLines_zero { emptyQuery with maxLines := some 0 }
    LokiQueryType.Range).1 10 rfl

/-- C8: changing the resolution selector fires exactly one telemetry report
carrying the selected value and the app context, then the update callback
with the resolution field replaced, then the run-query callback, in that
order. -/
theorem onResolutionChange_telemetry (app : Option CoreApp) (q : LokiQuery)
    (ov : Option Int) :
    onResolutionChange app q ov =
      [Event.report "grafana_loki_resolution_clicked" app ov,
       Event.change { q with resolution := ov }, Event.run]
    ∧ reportCount (onResolutionChange app q ov) = 1
    ∧ runCount (onResolutionChange app q ov) = 1
    ∧ changeCalls (onResolutionChange app q ov) =
      [{ q with resolution := ov }] :=
  ⟨rfl, rfl, rfl, rfl⟩

/-- C2: committing a split-duration value that fails the duration-syntax
check only sets the local invalid flag — no update callback, no run-query
callback; committing a valid value sets the flag valid, invokes the update
callback with `splitDuration` replaced, and invokes run-query exactly
once. -/
theorem onChunkRangeChange_validation (q : LokiQuery) (v : String) :
    (isValidDuration v = false →
      onChunkRangeChange q v = [Event.setSplitDurationValid false]
      ∧ changeCalls (onChunkRangeChange q v) = []
      ∧ runCount (onChunkRangeChange q v) = 0)
    ∧ (isValidDuration v = true →
      onChunkRangeChange q v =
        [Event.setSplitDurationValid true,
         Event.change { q with splitDuration := some v }, Event.run]
      ∧ changeCalls (onChunkRangeChange q v) =
        [{ q with splitDuration := some v }]
      ∧ runCount (onChunkRangeChange q v) = 1) := by
  constructor
  · intro h
    have e : onChunkRangeChange q v = [Event.setSplitDurationValid false] := by
      simp [onChunkRangeChange, h]
    exact ⟨e, by rw [e]; rfl, by rw [e]; rfl⟩
  · intro h
    have e : onChunkRangeChange q v =
        [Event.setSplitDurationValid true,
         Event.change { q with splitDuration := some v }, Event.run] := by
      simp [onChunkRangeChange, h]
    exact ⟨e, by rw [e]; rfl, by rw [e]; rfl⟩

/-- C2 witness: "2d" passes the duration-syntax check and commits, "x?" fails
and is discarded. -/
theorem onChunkRangeChange_validation_witness :
    (onChunkRangeChange emptyQuery "2d" =
      [Event.setSplitDurationValid true,
       Event.change { emptyQuery with splitDuration := some "2d" },
       Event.run]
      ∧ changeCalls (onChunkRangeChange emptyQuery "2d") =
        [{ emptyQuery with splitDuration := some "2d" }]
      ∧ runCount (onChunkRangeChange emptyQuery "2d") = 1)
    ∧ (onChunkRangeChange emptyQuery "x?" =
        [Event.setSplitDurationValid false]
      ∧ changeCalls (onChunkRangeChange emptyQuery "x?") = []
      ∧ runCount (onChunkRangeChange emptyQuery "x?") = 0) :=
  ⟨(onChunkRangeChange_validation emptyQuery "2d").2 (by decide),
   (onChunkRangeChange_validation emptyQuery "x?").1 (by decide)⟩

/-- C9: every field-edit handler passes to the update callback a query that
replaces exactly its own field and agrees with the input query on every
other field. -/
theorem handlers_frame :
    (∀ (q : LokiQuery) (v : String) (q' : LokiQuery),
      q' ∈ changeCalls (onLegendFormatChanged q v) →
      q'.legendFormat = some v ∧ q'.expr = q.expr
      ∧ q'.queryType = q.queryType ∧ q'.instant = q.instant
      ∧ q'.maxLines = q.maxLines ∧ q'.step = q.step
      ∧ q'.resolution = q.resolution ∧ q'.splitDuration = q.splitDuration)
    ∧ (∀ (q : LokiQuery) (t : LokiQueryType) (q' : LokiQuery),
      q' ∈ changeCalls (onQueryTypeChange q t) →
      q'.queryType = some t ∧ q'.expr = q.expr
      ∧ q'.legendFormat = q.legendFormat ∧ q'.instant = q.instant
      ∧ q'.maxLines = q.maxLines ∧ q'.step = q.step
      ∧ q'.resolution = q.resolution ∧ q'.splitDuration = q.splitDuration)
    ∧ (∀ (app : Option CoreApp) (q : LokiQuery) (ov : Option Int)
        (q' : LokiQuery),
      q' ∈ changeCalls (onResolutionChange app q ov) →
      q'.resolution = ov ∧ q'.expr = q.expr
      ∧ q'.legendFormat = q.legendFormat ∧ q'.queryType = q.queryType
      ∧ q'.instant = q.instant ∧ q'.maxLines = q.maxLines
      ∧ q'.step = q.step ∧ q'.splitDuration = q.splitDuration)
    ∧ (∀ (q : LokiQuery) (v : String) (q' : LokiQuery),
      q' ∈ changeCalls (onChunkRangeChange q v) →
      q'.splitDuration = some v ∧ q'.expr = q.expr
      ∧ q'.legendFormat = q.legendFormat ∧ q'.queryType = q.queryType
      ∧ q'.instant = q.instant ∧ q'.maxLines = q.maxLines
      ∧ q'.step = q.step ∧ q'.resolution = q.resolution)
    ∧ (∀ (q : LokiQuery) (v : String) (q' : LokiQuery),
      q' ∈ changeCalls (onMaxLinesChange q v) →
      q'.maxLines = preprocessMaxLines v ∧ q'.expr = q.expr
      ∧ q'.legendFormat = q.legendFormat ∧ q'.queryType = q.queryType
      ∧ q'.instant = q.instant ∧ q'.step = q.step
      ∧ q'.resolution = q.resolution ∧ q'.splitDuration = q.splitDuration)
    ∧ (∀ (q : LokiQuery) (v : String) (q' : LokiQuery),
      q' ∈ changeCalls (onStepChange q v) →
      q'.step = some (trim v) ∧ q'.expr = q.expr
      ∧ q'.legendFormat = q.legendFormat ∧ q'.queryType = q.queryType
      ∧ q'.instant = q.instant ∧ q'.maxLines = q.maxLines
      ∧ q'.resolution = q.resolution ∧ q'.splitDuration = q.splitDuration)
    := by
  refine ⟨?_, ?_, ?_, ?_, ?_, ?_⟩
  · intro q v q' hm
    have e : q' = { q with legendFormat := some v } := by
      simpa [changeCalls, onLegendFormatChanged] using hm
    subst e
    exact ⟨rfl, rfl, rfl, rfl, rfl, rfl, rfl, rfl⟩
  · intro q t q' hm
    have e : q' = { q with queryType := some t } := by
      simpa [changeCalls, onQueryTypeChange] using hm
    subst e
    exact ⟨rfl, rfl, rfl, rfl, rfl, rfl, rfl, rfl⟩
  · intro app q ov q' hm
    have e : q' = { q with resolution := ov } := by
      simpa [changeCalls, onResolutionChange] using hm
    subst e
    exact ⟨rfl, rfl, rfl, rfl, rfl, rfl, rfl, rfl⟩
  · intro q v q' hm
    cases hv : isValidDuration v with
    | false => simp [changeCalls, onChunkRangeChange, hv] at hm
    | true =>
      have e : q' = { q with splitDuration := some v } := by
        simpa [changeCalls, onChunkRangeChange, hv] using hm
      subst e
      exact ⟨rfl, rfl, rfl, rfl, rfl, rfl, rfl, rfl⟩
  · intro q v q' hm
    by_cases hg : q.maxLines = preprocessMaxLines v
    · simp [changeCalls, onMaxLinesChange, hg] at hm
    · have e : q' = { q with maxLines := preprocessMaxLines v } := by
        simpa [changeCalls, onMaxLinesChange, hg] using hm
      subst e
      exact ⟨rfl, rfl, rfl, rfl, rfl, rfl, rfl, rfl⟩
  · intro q v q' hm
    have e : q' = { q with step := some (trim v) } := by
      simpa [changeCalls, onStepChange] using hm
    subst e
    exact ⟨rfl, rfl, rfl, rfl, rfl, rfl, rfl, rfl⟩

/-- C9 witness: the legend handler at a concrete input replaces only the
legend-format field. -/
theorem handlers_frame_witness :
    ({ emptyQuery with legendFormat := some "lbl" } : LokiQuery).legendFormat
      = some "lbl"
    ∧ ({ emptyQuery with legendFormat := some "lbl" } : LokiQuery).expr
      = emptyQuery.expr
    ∧ ({ emptyQuery with legendFormat := some "lbl" } : LokiQuery).queryType
      = emptyQuery.queryType
    ∧ ({ emptyQuery with legendFormat := some "lbl" } : LokiQuery).instant
      = emptyQuery.instant
    ∧ ({ emptyQuery with legendFormat := some "lbl" } : LokiQuery).maxLines
      = emptyQuery.maxLines
    ∧ ({ emptyQuery with legendFormat := some "lbl" } : LokiQuery).step
      = emptyQuery.step
    ∧ ({ emptyQuery with legendFormat := some "lbl" } : LokiQuery).resolution
      = emptyQuery.resolution
    ∧ ({ emptyQuery with legendFormat := some "lbl" } : LokiQuery).splitDuration
      = emptyQuery.splitDuration :=
  handlers_frame.1 emptyQuery "lbl"
    { emptyQuery with legendFormat := some "lbl" } (by decide)

/-- C6 counterexample: committing "5" on the line-limit field of a query
whose `maxLines` is already 5 fires no update callback and no run-query
callback — the handler's change guard suppresses the propagation. -/
theorem onMaxLinesChange_guard_counterexample :
    onMaxLinesChange { emptyQuery with maxLines := some 5 } "5" = []
    ∧ runCount (onMaxLinesChange { emptyQuery with maxLines := some 5 } "5")
      = 0
    ∧ changeCalls
      (onMaxLinesChange { emptyQuery with maxLines := some 5 } "5") = [] := by
  refine ⟨?_, ?_, ?_⟩ <;> decide

/-- C6 amended: legend, query type, step and resolution commits propagate
unconditionally as an update followed by run-query (resolution after its
telemetry report); a line-limit commit propagates exactly when the
preprocessed value differs from the query's current `maxLines`, and is
dropped otherwise. -/
theorem handlers_propagate_amended (app : Option CoreApp) (q : LokiQuery)
    (t : LokiQueryType) (legend stepv maxv : String) :
    onLegendFormatChanged q legend =
      [Event.change { q with legendFormat := some legend }, Event.run]
    ∧ onQueryTypeChange q t =
      [Event.change { q with queryType := some t }, Event.run]
    ∧ onStepChange q stepv =
      [Event.change { q with step := some (trim stepv) }, Event.run]
    ∧ (∀ ov : Option Int, onResolutionChange app q ov =
        [Event.report "grafana_loki_resolution_clicked" app ov,
         Event.change { q with resolution := ov }, Event.run])
    ∧ (preprocessMaxLines maxv ≠ q.maxLines →
        onMaxLinesChange q maxv =
          [Event.change { q with maxLines := preprocessMaxLines maxv },
           Event.run])
    ∧ (preprocessMaxLines maxv = q.maxLines →
        onMaxLinesChange q maxv = []) := by
  refine ⟨rfl, rfl, rfl, fun ov => rfl, ?_, ?_⟩
  · intro h
    have h2 : q.maxLines ≠ preprocessMaxLines maxv := fun e => h e.symm
    simp [onMaxLinesChange, h2]
  · intro h
    simp [onMaxLinesChange, h.symm]

/-- C6 amended witness: a differing line-limit commit propagates. -/
theorem handlers_propagate_amended_witness :
    onMaxLinesChange emptyQuery "7" =
      [Event.change { emptyQuery with maxLines := preprocessMaxLines "7" },
       Event.run] :=
  (handlers_propagate_amended none emptyQuery LokiQueryType.Range
    "x" "x" "7").2.2.2.2.1 (by decide)

theorem res_ne_legend (s x : String) :
    ("Resolution: " ++ s) ≠ ("Legend: " ++ x) :=
  fun h => legend_ne_res x s h.symm

theorem res_ne_type (s x : String) :
    ("Resolution: " ++ s) ≠ ("Type: " ++ x) :=
  fun h => type_ne_res x s h.symm

theorem res_ne_step (s x : String) :
    ("Resolution: " ++ s) ≠ ("Step: " ++ x) :=
  fun h => step_ne_res x s h.symm

theorem res_ne_limit (s x : String) :
    ("Resolution: " ++ s) ≠ ("Line limit: " ++ x) :=
  fun h => limit_ne_res x s h.symm

theorem legend_ne_res12 (x : String) :
    ("Legend: " ++ x) ≠ "Resolution: 1/2" :=
  fun h => legend_ne_res x "1/2" (h.trans (by decide))

theorem type_ne_res12 (x : String) :
    ("Type: " ++ x) ≠ "Resolution: 1/2" :=
  fun h => type_ne_res x "1/2" (h.trans (by decide))

theorem step_ne_res12 (x : String) :
    ("Step: " ++ x) ≠ "Resolution: 1/2" :=
  fun h => step_ne_res x "1/2" (h.trans (by decide))

theorem limit_ne_res12 (x : String) :
    ("Line limit: " ++ x) ≠ "Resolution: 1/2" :=
  fun h => limit_ne_res x "1/2" (h.trans (by decide))

/-- C4: with `resolution = 2` (catalog label "1/2") the summary contains
"Resolution: 1/2" exactly twice for a non-log query and exactly once for a
log query. -/
theorem getCollapsedInfo_resolution_count (q : LokiQuery)
    (qt : LokiQueryType) (ml : Int) :
    q.resolution = some 2 →
    (getCollapsedInfo q qt ml false).count "Resolution: 1/2" = 2
    ∧ (getCollapsedInfo q qt ml true).count "Resolution: 1/2" = 1 := by
  intro h
  have ht : truthyInt q.resolution = true := by rw [h]; decide
  have hlabel : resolutionLabelStr q = "1/2" := by
    unfold resolutionLabelStr
    rw [h]
    decide
  have e : ("Resolution: 1/2" : String) = "Resolution: " ++ "1/2" := by decide
  constructor <;>
  · unfold getCollapsedInfo
    rw [ht, hlabel, e]
    cases hleg : truthyStr q.legendFormat <;>
      cases hstep : truthyStr q.step <;>
      simp [List.count_append, List.count_cons, List.count_nil,
        legend_ne_res12, type_ne_res12, step_ne_res12, limit_ne_res12]

/-- C4 witness: the two counts at a concrete query with `resolution = 2`. -/
theorem getCollapsedInfo_resolution_count_witness :
    (getCollapsedInfo { emptyQuery with resolution := some 2 }
      LokiQueryType.Range 10 false).count "Resolution: 1/2" = 2
    ∧ (getCollapsedInfo { emptyQuery with resolution := some 2 }
      LokiQueryType.Range 10 true).count "Resolution: 1/2" = 1 :=
  getCollapsedInfo_resolution_count { emptyQuery with resolution := some 2 }
    LokiQueryType.Range 10 rfl

/-- C5 counterexample: for a query whose resolution field is set to the
default value 1, the generic resolution entry does appear in the summary
(the guard is JavaScript truthiness, which 1 satisfies), refuting the
claim that no such entry appears for the default value. -/
theorem resolution_default_counterexample :
    "Resolution: 1/1" ∈
      getCollapsedInfo { emptyQuery with resolution := some 1 }
        LokiQueryType.Range 10 false := by
  decide

/-- C5 amended: the generic resolution-label entry appears iff the
resolution field is set to a non-zero value; in particular, for a query
whose resolution is set to the default value 1 the entry
"Resolution: 1/1" appears. -/
theorem resolution_entry_amended (q : LokiQuery) (qt : LokiQueryType)
    (ml : Int) (log : Bool) :
    (truthyInt q.resolution = true →
      ("Resolution: " ++ resolutionLabelStr q) ∈
        getCollapsedInfo q qt ml log)
    ∧ (truthyInt q.resolution = false →
      ∀ s : String, ("Resolution: " ++ s) ∉ getCollapsedInfo q qt ml log)
    ∧ (q.resolution = some 1 →
      "Resolution: 1/1" ∈ getCollapsedInfo q qt ml log) := by
  have main : truthyInt q.resolution = true →
      ("Resolution: " ++ resolutionLabelStr q) ∈
        getCollapsedInfo q qt ml log := by
    intro h
    unfold getCollapsedInfo
    apply mem_seg2
    rw [h]
    simp
  refine ⟨main, ?_, ?_⟩
  · intro h s hmem
    cases log <;>
      cases hleg : truthyStr q.legendFormat <;>
      cases hstep : truthyStr q.step <;>
      simp [getCollapsedInfo, h, hleg, hstep,
        res_ne_legend, res_ne_type, res_ne_step, res_ne_limit] at hmem
  · intro h
    have ht : truthyInt q.resolution = true := by rw [h]; decide
    have hlabel : resolutionLabelStr q = "1/1" := by
      unfold resolutionLabelStr
      rw [h]
      decide
    have e : ("Resolution: 1/1" : String) =
        "Resolution: " ++ resolutionLabelStr q := by
      rw [hlabel]
      decide
    rw [e]
    exact main ht

/-- C5 amended witness: at a concrete query with resolution 1, for a log
query, the entry appears. -/
theorem resolution_entry_amended_witness :
    "Resolution: 1/1" ∈
      getCollapsedInfo { emptyQuery with resolution := some 1 }
        LokiQueryType.Instant 10 true :=
  (resolution_entry_amended { emptyQuery with resolution := some 1 }
    LokiQueryType.Instant 10 true).2.2 rfl
